import Mathlib

/-!
Verification of the feedback-analyzer worker (`src/index.ts`) against its
natural-language specification.

The TypeScript handlers are shallowly embedded as Lean functions.  Every
`await` on an external service (KV cache, D1 store, Workers AI) is modelled
by an oracle recorded in `EnvO`: the oracle gives the outcome of that call
(`Except.ok` for a resolved promise, `Except.error` for a rejected one).
A handler runs in the monad `M`, which pairs an `Except`-result with the
list of externally visible events (cache reads/writes/deletes, store
queries/inserts) the handler performed, in order.  A rejected promise that
is not caught aborts the handler exactly as a thrown exception aborts the
TypeScript function, and the events performed before the throw remain in
the trace.

SQL queries are embedded as pure list functions over the store contents
(`List Feedback`), translated clause by clause from the statements in the
source.  `toFixed(1)` is embedded as decimal rounding to one place
(round half up) over `ℚ`.
-/

namespace FeedbackAnalyzer

/-- A row of the `feedback` relation, from the `Feedback` interface in
`src/index.ts` and the table schema.  Timestamps are modelled as `Nat`
(larger = later); `description` is a plain string (the source treats a
missing description as the empty/falsy value). -/
structure Feedback where
  id : Nat
  title : String
  description : String
  source : String
  user_email : Option String
  sentiment : Option String
  category : Option String
  created_at : Nat
  resolved_at : Option Nat
  priority : String
deriving DecidableEq

/-- Externally visible events performed by a handler, in order. -/
inductive Event where
  | cacheGet (k : String)
  | cachePut (k : String) (v : String) (ttl : Nat)
  | cacheDelete (k : String)
  | dbQuery (q : String)
  | dbInsert (title : String)
deriving DecidableEq

/-- Oracles for the external collaborators of one request: each field gives
the outcome of the corresponding awaited call in the source. -/
structure EnvO where
  cacheGet : String → Except String (Option String)
  cachePut : String → String → Nat → Except String Unit
  cacheDelete : String → Except String Unit
  classify : String → Except String (String × ℚ)
  summarize : String → Except String String
  insertRes : Nat → Except String Nat
  db : List Feedback
  now : String
  cutoff7 : Nat
  nowT : Nat

/-- The effect monad of a handler: result (or uncaught exception) together
with the trace of events performed. -/
structure M (α : Type) : Type where
  res : Except String α
  trace : List Event

instance : Monad M where
  pure a := ⟨Except.ok a, []⟩
  bind x f :=
    match x.res with
    | Except.ok a => ⟨(f a).res, x.trace ++ (f a).trace⟩
    | Except.error e => ⟨Except.error e, x.trace⟩

/-- Semantics of `try { body } catch (e) { handler }`: effects of the body persist. -/
def tryCatchA {α : Type} (x : M α) (handler : String → M α) : M α :=
  match x.res with
  | Except.ok _ => x
  | Except.error e => ⟨(handler e).res, x.trace ++ (handler e).trace⟩

/-- The call `await env.CACHE.get(k)`. -/
def cacheGetA (env : EnvO) (k : String) : M (Option String) :=
  ⟨env.cacheGet k, [Event.cacheGet k]⟩

/-- The call `await env.CACHE.put(k, v, { expirationTtl: ttl })`. -/
def cachePutA (env : EnvO) (k v : String) (ttl : Nat) : M Unit :=
  ⟨env.cachePut k v ttl, [Event.cachePut k v ttl]⟩

/-- The call `await env.CACHE.delete(k)`. -/
def cacheDeleteA (env : EnvO) (k : String) : M Unit :=
  ⟨env.cacheDelete k, [Event.cacheDelete k]⟩

/-- An awaited read-only D1 query; the embedded query result is passed in. -/
def dbQueryA {α : Type} (q : String) (rows : α) : M α :=
  ⟨Except.ok rows, [Event.dbQuery q]⟩

/-- The awaited insert statement of the seeding loop, bound to title,
description, source, user_email, sentiment, category, priority and
created_at; the event is recorded only when the insert succeeds and
carries the inserted title. -/
def insertA (env : EnvO) (idx : Nat)
    (title description source user_email sentiment category priority created_at : String) :
    M Nat :=
  match env.insertRes idx with
  | Except.ok rowid => ⟨Except.ok rowid, [Event.dbInsert title]⟩
  | Except.error e => ⟨Except.error e, []⟩

/-- The sentiment score of the `CASE WHEN` expression in `getStats`
(lines 101-109): positive ↦ 8.0, neutral ↦ 5.0, anything else
(including NULL) ↦ 2.0. -/
def sentimentScore (s : Option String) : ℚ :=
  if s = some "positive" then 8 else if s = some "neutral" then 5 else 2

/-- JavaScript `Number.prototype.toFixed(1)` on a nonnegative rational:
round to one decimal place, half up. -/
def toFixed1 (q : ℚ) : String :=
  let n : ℤ := ⌊q * 10 + 1 / 2⌋
  toString (n / 10) ++ "." ++ toString (n % 10)

/-- Lines 111-113 of `getStats`: the average score over all rows of the
sentiment-score query, `toFixed(1)`, guarded by the row count; `0.0`
when there are no rows. -/
def avgScoreString (db : List Feedback) : String :=
  let scores := db.map (fun f => sentimentScore f.sentiment)
  if scores.length > 0 then
    toFixed1 (scores.foldl (· + ·) 0 / (scores.length : ℚ))
  else "0.0"

/-- The query `SELECT COUNT(*) FROM feedback WHERE resolved_at IS NULL`. -/
def unresolvedCount (db : List Feedback) : Nat :=
  (db.filter (fun f => f.resolved_at.isNone)).length

/-- Distinct values of a list, keeping the first occurrence of each. -/
def dedupKeepFirst (l : List String) : List String :=
  l.foldl (fun acc a => if a ∈ acc then acc else acc ++ [a]) []

/-- The repeat-users subquery of `getStats` (lines 115-124): distinct
non-null user emails appearing on more than one record (all records,
resolved or not). -/
def repeatUserCount (db : List Feedback) : Nat :=
  ((dedupKeepFirst (db.filterMap (fun f => f.user_email))).filter
    (fun e => 1 < (db.filter (fun f => f.user_email == some e)).length)).length

/-- Serialization of the `stats` object returned by `getStats`. -/
def statsPayload (total : Nat) (avg : String) (unresolved repeat2 : Nat) : String :=
  "total=" ++ toString total ++ ";avgSentiment=" ++ avg ++
    ";unresolved=" ++ toString unresolved ++ ";repeatUsers=" ++ toString repeat2

/-- The payload `getStats` computes on a cache miss. -/
def statsView (db : List Feedback) : String :=
  statsPayload db.length (avgScoreString db) (unresolvedCount db) (repeatUserCount db)

/-- Handler `getStats` (lines 90-139): read-through on key `stats`; on a hit return
the cached string; on a miss run the four queries, build the payload,
`put` it with TTL 300 and return it.  Neither the `get` nor the `put`
is guarded by a try/catch in the source. -/
def getStats (env : EnvO) : M String := do
  let cached ← cacheGetA env "stats"
  match cached with
  | some c => pure c
  | none => do
    let total ← dbQueryA "countAll" env.db.length
    let unresolved ← dbQueryA "countUnresolved" (unresolvedCount env.db)
    let avgScore ← dbQueryA "sentimentScores" (avgScoreString env.db)
    let repeat2 ← dbQueryA "repeatUsers" (repeatUserCount env.db)
    let response := statsPayload total avgScore unresolved repeat2
    let _ ← cachePutA env "stats" response 300
    pure response

/-- Whether `pat` matches at the head of `l`. -/
def prefMatch : List Char → List Char → Bool
  | [], _ => true
  | _ :: _, [] => false
  | a :: as, b :: bs => a == b && prefMatch as bs

/-- Whether `pat` occurs somewhere in `l` (JavaScript includes). -/
def subMatch (pat : List Char) : List Char → Bool
  | [] => pat.isEmpty
  | b :: bs => prefMatch pat (b :: bs) || subMatch pat bs

/-- The check `s.includes(pat)`. -/
def containsSub (s pat : String) : Bool :=
  subMatch pat.toList s.toList

/-- ASCII lowercase of one character (the keyword texts are ASCII). -/
def lowerChar (c : Char) : Char :=
  if 65 ≤ c.toNat ∧ c.toNat ≤ 90 then Char.ofNat (c.toNat + 32) else c

/-- The call `text.toLowerCase()`. -/
def toLowerStr (s : String) : String := String.mk (s.data.map lowerChar)

/-- The keyword fallback of `analyzeSentiment` (lines 314-322): lowercase
the text; any of the four positive keywords ↦ positive; else any of the
six negative keywords ↦ negative; else neutral. -/
def fallbackSentiment (text : String) : String :=
  let lowerText := toLowerStr text
  if containsSub lowerText "great" || containsSub lowerText "love" ||
      containsSub lowerText "awesome" || containsSub lowerText "excellent" then
    "positive"
  else if containsSub lowerText "fail" || containsSub lowerText "error" ||
      containsSub lowerText "broken" || containsSub lowerText "slow" ||
      containsSub lowerText "issue" || containsSub lowerText "problem" then
    "negative"
  else "neutral"

/-- The body of `analyzeSentiment` as a function of the outcome of the
classifier call: on success map (label, score) through the two threshold checks
(lines 310-312); on failure use the keyword fallback. -/
def analyzeSentimentCore (cls : Except String (String × ℚ)) (text : String) : String :=
  match cls with
  | Except.ok (label, score) =>
    if label = "POSITIVE" && score > 6 / 10 then "positive"
    else if label = "NEGATIVE" && score > 6 / 10 then "negative"
    else "neutral"
  | Except.error _ => fallbackSentiment text

/-- Function `analyzeSentiment` (lines 300-324): call the classifier on the text
truncated to 500 characters; the try/catch around the call selects the
primary mapping or the keyword fallback. -/
def analyzeSentiment (env : EnvO) (text : String) : String :=
  analyzeSentimentCore (env.classify (text.take 500)) text

/-- Priority derivation in `seedDatabase` (lines 373-378). -/
def derivePriority (sentiment title : String) : String :=
  if sentiment = "negative" &&
      (containsSub title "error" || containsSub title "fail" || containsSub title "crash") then
    "high"
  else if sentiment = "positive" then "low"
  else "medium"

/-- Category derivation in `seedDatabase` (lines 381-388). -/
def deriveCategory (title : String) : String :=
  if containsSub title "Dashboard" || containsSub title "UI" then "ux"
  else if containsSub title "Workers AI" || containsSub title "AI" then "ai"
  else if containsSub title "D1" || containsSub title "migration" ||
      containsSub title "Database" then "database"
  else if containsSub title "KV" || containsSub title "cache" then "storage"
  else if containsSub title "API" || containsSub title "performance" ||
      containsSub title "slow" then "performance"
  else if containsSub title "Wrangler" || containsSub title "CLI" then "tooling"
  else if containsSub title "documentation" || containsSub title "CORS" then "docs"
  else "general"

/-- A result row of the repeat-users query. -/
structure RepeatRow where
  user_email : String
  complaint_count : Nat
  issues : String
deriving DecidableEq

/-- The filter `WHERE resolved_at IS NULL AND user_email IS NOT NULL`. -/
def unresolvedWithEmail (db : List Feedback) : List Feedback :=
  db.filter (fun f => f.resolved_at.isNone && f.user_email.isSome)

/-- The rows of one `GROUP BY user_email` group, in store order. -/
def groupOf (db : List Feedback) (e : String) : List Feedback :=
  (unresolvedWithEmail db).filter (fun f => f.user_email == some e)

/-- The distinct group keys, in order of first appearance. -/
def repeatEmails (db : List Feedback) : List String :=
  dedupKeepFirst ((unresolvedWithEmail db).filterMap (fun f => f.user_email))

/-- One output row: user_email, COUNT(*), and GROUP_CONCAT of the titles.
`GROUP_CONCAT` concatenates the titles of every row of the group (no
`DISTINCT` in the source), modelled in store order. -/
def mkRow (db : List Feedback) (e : String) : RepeatRow :=
  { user_email := e
    complaint_count := (groupOf db e).length
    issues := String.intercalate " | " ((groupOf db e).map (fun f => f.title)) }

/-- Ordering used by `ORDER BY complaint_count DESC`. -/
def countGE (a b : RepeatRow) : Prop := b.complaint_count ≤ a.complaint_count

instance : DecidableRel countGE :=
  fun a b => inferInstanceAs (Decidable (b.complaint_count ≤ a.complaint_count))

instance : IsTrans RepeatRow countGE :=
  ⟨fun _ _ _ h1 h2 => le_trans h2 h1⟩

instance : IsTotal RepeatRow countGE :=
  ⟨fun a b => le_total b.complaint_count a.complaint_count⟩

/-- The repeat-users query of `getRepeatUsers` (lines 201-213): group the
unresolved rows with a non-null email by email, `HAVING COUNT(*) > 1`,
`ORDER BY complaint_count DESC`, `LIMIT 5`. -/
def repeatUsersRows (db : List Feedback) : List RepeatRow :=
  ((((repeatEmails db).map (mkRow db)).filter
      (fun r => 1 < r.complaint_count)).insertionSort countGE).take 5

/-- Modelled from the spec sentence for RepeatUsers: identical to
`repeatUsersRows` except that the concatenation keeps each distinct title
of the group at most once, as the wording of the spec requires. -/
def mkRowSpec (db : List Feedback) (e : String) : RepeatRow :=
  { user_email := e
    complaint_count := (groupOf db e).length
    issues := String.intercalate " | "
      (dedupKeepFirst ((groupOf db e).map (fun f => f.title))) }

/-- The RepeatUsers view as the wording of the spec describes it (distinct titles). -/
def repeatUsersRowsSpec (db : List Feedback) : List RepeatRow :=
  ((((repeatEmails db).map (mkRowSpec db)).filter
      (fun r => 1 < r.complaint_count)).insertionSort countGE).take 5

/-- Serialization of the repeat-users result rows. -/
def repeatPayload (rows : List RepeatRow) : String :=
  String.intercalate ";"
    (rows.map (fun r => r.user_email ++ "#" ++ toString r.complaint_count ++ "#" ++ r.issues))

/-- Handler `getRepeatUsers` (lines 192-221): read-through on key `repeat-users`,
TTL 300; no try/catch around the cache `get` or `put`. -/
def getRepeatUsers (env : EnvO) : M String := do
  let cached ← cacheGetA env "repeat-users"
  match cached with
  | some c => pure c
  | none => do
    let rows ← dbQueryA "repeatUsersRows" (repeatUsersRows env.db)
    let response := repeatPayload rows
    let _ ← cachePutA env "repeat-users" response 300
    pure response

/-- A result row of the top-issues query. -/
structure TopIssueRow where
  title : String
  count : Nat
  sentiment : Option String
deriving DecidableEq

/-- The rows sharing one title: `WHERE resolved_at IS NULL GROUP BY title`. -/
def titleGroupOf (db : List Feedback) (t : String) : List Feedback :=
  (db.filter (fun f => f.resolved_at.isNone)).filter (fun f => f.title == t)

/-- One output row of the top-issues query: the title, `COUNT(*)`, and the
bare `sentiment` column, which SQLite takes from one row of the group
(modelled as the first row in store order). -/
def mkTopRow (db : List Feedback) (t : String) : TopIssueRow :=
  { title := t
    count := (titleGroupOf db t).length
    sentiment := match titleGroupOf db t with
      | [] => none
      | f :: _ => f.sentiment }

/-- Ordering used by `ORDER BY count DESC` in the top-issues query. -/
def topCountGE (a b : TopIssueRow) : Prop := b.count ≤ a.count

instance : DecidableRel topCountGE :=
  fun a b => inferInstanceAs (Decidable (b.count ≤ a.count))

/-- The top-issues query of `getTopIssues` (lines 151-161): group the
unresolved rows by title, `ORDER BY count DESC`, `LIMIT 5`. -/
def topIssuesRows (db : List Feedback) : List TopIssueRow :=
  (((dedupKeepFirst ((db.filter (fun f => f.resolved_at.isNone)).map (fun f => f.title))).map
      (mkTopRow db)).insertionSort topCountGE).take 5

/-- Serialization of the top-issues result rows. -/
def topIssuesPayload (rows : List TopIssueRow) : String :=
  String.intercalate ";" (rows.map (fun r =>
    r.title ++ "#" ++ toString r.count ++ "#" ++
      (match r.sentiment with | some s => s | none => "null")))

/-- Handler `getTopIssues` (lines 142-169): read-through on key
`top-issues`, TTL 300; no try/catch around the cache `get` or `put`. -/
def getTopIssues (env : EnvO) : M String := do
  let cached ← cacheGetA env "top-issues"
  match cached with
  | some c => pure c
  | none => do
    let rows ← dbQueryA "topIssuesRows" (topIssuesRows env.db)
    let response := topIssuesPayload rows
    let _ ← cachePutA env "top-issues" response 300
    pure response

/-- A result row of the longest-unresolved query. -/
structure LongRow where
  title : String
  created_at : Nat
  source : String
  days_open : Nat
deriving DecidableEq

/-- Ordering used by `ORDER BY created_at ASC`. -/
def createdLE (a b : Feedback) : Prop := a.created_at ≤ b.created_at

instance : DecidableRel createdLE :=
  fun a b => inferInstanceAs (Decidable (a.created_at ≤ b.created_at))

/-- The longest-unresolved query (lines 233-243): unresolved rows ordered
by `created_at ASC`, `LIMIT 5`; timestamps are modelled in days, so the
`CAST((julianday(now) - julianday(created_at)) AS INTEGER)` column is the
truncated difference `nowT - created_at`. -/
def longestRows (db : List Feedback) (nowT : Nat) : List LongRow :=
  (((db.filter (fun f => f.resolved_at.isNone)).insertionSort createdLE).take 5).map
    (fun f => { title := f.title, created_at := f.created_at, source := f.source,
                days_open := nowT - f.created_at })

/-- Serialization of the longest-unresolved result rows. -/
def longestPayload (rows : List LongRow) : String :=
  String.intercalate ";" (rows.map (fun r =>
    r.title ++ "#" ++ toString r.created_at ++ "#" ++ r.source ++ "#" ++ toString r.days_open))

/-- Handler `getLongestUnresolved` (lines 224-251): read-through on key
`longest-unresolved`, TTL 300; no try/catch around the cache `get` or
`put`. -/
def getLongestUnresolved (env : EnvO) : M String := do
  let cached ← cacheGetA env "longest-unresolved"
  match cached with
  | some c => pure c
  | none => do
    let rows ← dbQueryA "longestRows" (longestRows env.db env.nowT)
    let response := longestPayload rows
    let _ ← cachePutA env "longest-unresolved" response 300
    pure response

/-- Ordering used by `ORDER BY created_at DESC`. -/
def createdGE (a b : Feedback) : Prop := b.created_at ≤ a.created_at

instance : DecidableRel createdGE :=
  fun a b => inferInstanceAs (Decidable (b.created_at ≤ a.created_at))

/-- The recent-issues query (lines 173-184): all rows ordered by
`created_at DESC`, `LIMIT 5`. -/
def recentRows (db : List Feedback) : List Feedback :=
  (db.insertionSort createdGE).take 5

/-- Serialization of the recent-issues result rows. -/
def recentPayload (rows : List Feedback) : String :=
  String.intercalate ";" (rows.map (fun f => toString f.id ++ ":" ++ f.title))

/-- Handler `getRecentIssues` (lines 172-189): one store query, no cache access
of any kind. -/
def getRecentIssues (env : EnvO) : M String := do
  let rows ← dbQueryA "recentRows" (recentRows env.db)
  pure (recentPayload rows)

/-- The query of `getAIInsights` (lines 437-443): rows with
created_at strictly greater than the 7-day cutoff (the cutoff timestamp is
`env.cutoff7`), ordered `created_at DESC`, `LIMIT 20`. -/
def recentWindow (db : List Feedback) (cutoff : Nat) : List Feedback :=
  ((db.filter (fun f => cutoff < f.created_at)).insertionSort createdGE).take 20

/-- One line of the summarizer prompt: `title: description`, with
the No-description placeholder for a falsy description (lines 445-447). -/
def lineOf (f : Feedback) : String :=
  f.title ++ ": " ++ (if f.description = "" then "No description" else f.description)

/-- The concatenated prompt text sent to the summarizer. -/
def aiPrompt (db : List Feedback) (cutoff : Nat) : String :=
  String.intercalate "\n" ((recentWindow db cutoff).map lineOf)

/-- The awaited summarizer model call; the oracle result already includes
the default text that the source substitutes for a falsy response. -/
def summarizeA (env : EnvO) (text : String) : M String :=
  ⟨env.summarize text, []⟩

/-- The fixed fallback insight text of the catch branch (line 477). -/
def fallbackInsightsMsg : String :=
  "AI analysis temporarily unavailable. Using cached data."

/-- Serialization of the insights object: the text plus `generated_at`. -/
def insightsPayload (resp now : String) : String :=
  "insights=" ++ resp ++ ";generated_at=" ++ now

/-- Handler `getAIInsights` (lines 427-485): read-through on key `ai-insights`.
The cache `get` and the store query are outside the try block; the
summarizer call, the cache `put` (TTL 600) and the success response are
inside it; the catch branch returns the fixed fallback payload. -/
def getAIInsights (env : EnvO) : M String := do
  let cached ← cacheGetA env "ai-insights"
  match cached with
  | some c => pure c
  | none => do
    let recent ← dbQueryA "recentWindow" (recentWindow env.db env.cutoff7)
    let feedbackText := String.intercalate "\n" (recent.map lineOf)
    tryCatchA
      (do
        let resp ← summarizeA env feedbackText
        let insights := insightsPayload resp env.now
        let _ ← cachePutA env "ai-insights" insights 600
        pure insights)
      (fun _ => pure (insightsPayload fallbackInsightsMsg env.now))

/-- One entry of the hardcoded `mockFeedback` array in `seedDatabase`. -/
structure SeedItem where
  title : String
  description : String
  source : String
  user_email : String
  created_at : String
deriving DecidableEq

/-- The `mockFeedback` array (lines 336-362). -/
def mockFeedback : List SeedItem := [
  ⟨"Dashboard loading takes 5+ seconds", "The dashboard takes way too long to load. Sometimes it times out completely.", "Discord", "dev@company.com", "-45 days"⟩,
  ⟨"Dashboard loading takes 5+ seconds", "Dashboard is extremely slow to load", "Support Ticket", "pm@startup.io", "-40 days"⟩,
  ⟨"Dashboard loading takes 5+ seconds", "Performance issue with dashboard", "GitHub", "eng@tech.com", "-35 days"⟩,
  ⟨"Dashboard loading takes 5+ seconds", "Dashboard loading is slow", "Twitter", "user1@email.com", "-30 days"⟩,
  ⟨"Dashboard loading takes 5+ seconds", "Dashboard timeout errors", "Discord", "dev@company.com", "-25 days"⟩,
  ⟨"Workers AI timeout errors on large files", "Workers AI times out when processing files larger than 5MB", "GitHub", "eng@tech.com", "-38 days"⟩,
  ⟨"Workers AI timeout errors on large files", "Large file processing fails", "Support Ticket", "pm@startup.io", "-33 days"⟩,
  ⟨"Workers AI timeout errors on large files", "Timeout issue with AI service", "Discord", "dev@company.com", "-28 days"⟩,
  ⟨"D1 migrations fail silently", "D1 migrations fail without error messages", "GitHub", "eng@tech.com", "-42 days"⟩,
  ⟨"D1 migrations fail silently", "Migration errors are not reported properly", "Support Ticket", "pm@startup.io", "-37 days"⟩,
  ⟨"KV cache invalidation not working", "Cache does not invalidate when keys are updated", "Discord", "dev@company.com", "-15 days"⟩,
  ⟨"KV cache invalidation not working", "Cache invalidation broken", "GitHub", "eng@tech.com", "-12 days"⟩,
  ⟨"Cannot deploy to Workers", "Deployment fails with cryptic error message", "Discord", "dev@company.com", "-5 minutes"⟩,
  ⟨"Wrangler CLI crashes on Windows", "CLI crashes when running deploy command on Windows 11", "GitHub", "eng@tech.com", "-44 days"⟩,
  ⟨"Documentation unclear on D1 setup", "Cannot find clear instructions for D1 database setup", "Support Ticket", "pm@startup.io", "-39 days"⟩,
  ⟨"R2 CORS configuration unclear", "Cannot figure out CORS setup for R2 buckets", "Support Ticket", "pm@startup.io", "-36 days"⟩,
  ⟨"API performance degraded", "API is slower than usual. Response times have increased significantly", "Discord", "dev@company.com", "-3 days"⟩,
  ⟨"Great new AI feature!", "Love the new AI models. They work really well!", "Twitter", "fan@email.com", "-1 hour"⟩,
  ⟨"Love the new features!", "Great updates this month. Keep up the good work!", "Twitter", "happy@user.com", "-1 day"⟩,
  ⟨"KV storage quota exceeded", "Need more storage for KV namespace", "Support Ticket", "dev@company.com", "-12 minutes"⟩,
  ⟨"Database migration failed", "D1 migration script not working as expected", "Support Ticket", "pm@startup.io", "-2 hours"⟩,
  ⟨"Workers AI rate limiting too strict", "Hit rate limits with Workers AI too quickly", "GitHub", "eng@tech.com", "-31 days"⟩,
  ⟨"Dashboard UI confusing", "Hard to find deployment settings in the dashboard", "Twitter", "user1@email.com", "-2 days"⟩,
  ⟨"Workers AI is slow", "AI inference takes too long to complete", "GitHub", "eng@tech.com", "-29 days"⟩,
  ⟨"Excellent documentation update", "The latest docs are much clearer. Thank you!", "Twitter", "happy@user.com", "-6 hours"⟩]

/-- The body of one iteration of the seeding loop (lines 367-408): classify,
derive priority and category, insert; the per-record try/catch turns an
insert failure into an error entry without aborting the batch.
`Sum.inl` is a success entry of `inserted`, `Sum.inr` an entry of `errors`. -/
def seedRecordA (env : EnvO) (idx : Nat) (fb : SeedItem) :
    M (Sum (Nat × String × String) (String × String)) :=
  tryCatchA
    (do
      let sentiment := analyzeSentiment env (fb.title ++ " " ++ fb.description)
      let priority := derivePriority sentiment fb.title
      let category := deriveCategory fb.title
      let rowid ← insertA env idx fb.title fb.description fb.source fb.user_email
        sentiment category priority fb.created_at
      pure (Sum.inl (rowid, fb.title, sentiment)))
    (fun e => pure (Sum.inr (fb.title, e)))

/-- The seeding loop over the mock entries, accumulating the `inserted`
and `errors` arrays in push order. -/
def seedLoop (env : EnvO) : Nat → List SeedItem →
    M (List (Nat × String × String) × List (String × String))
  | _, [] => pure ([], [])
  | idx, fb :: rest => do
    let res ← seedRecordA env idx fb
    let (ins, errs) ← seedLoop env (idx + 1) rest
    match res with
    | Sum.inl i => pure (i :: ins, errs)
    | Sum.inr e => pure (ins, e :: errs)

/-- Serialization of the response object of `seedDatabase` (lines 410-423). -/
def seedResponse (ins : List (Nat × String × String)) (errs : List (String × String)) : String :=
  "Seeded " ++ toString ins.length ++ " feedback entries;errors=" ++ toString errs.length

/-- The fixed cache-key set deleted by `seedDatabase`. -/
def invKeys : List String :=
  ["stats", "top-issues", "repeat-users", "longest-unresolved", "ai-insights"]

/-- Handler `seedDatabase` (lines 327-424): the five cache deletes come first
(lines 329-333, before any insert), then the loop over `mockFeedback`,
then the response. -/
def seedDatabase (env : EnvO) : M String := do
  let _ ← cacheDeleteA env "stats"
  let _ ← cacheDeleteA env "top-issues"
  let _ ← cacheDeleteA env "repeat-users"
  let _ ← cacheDeleteA env "longest-unresolved"
  let _ ← cacheDeleteA env "ai-insights"
  let (ins, errs) ← seedLoop env 0 mockFeedback
  pure (seedResponse ins errs)

/-- A record constructor with the fields the claims vary. -/
def mkFb (id : Nat) (title : String) (email : Option String) (sentiment : Option String)
    (created : Nat) (resolved : Option Nat) : Feedback :=
  { id := id, title := title, description := "", source := "Discord", user_email := email,
    sentiment := sentiment, category := none, created_at := created,
    resolved_at := resolved, priority := "medium" }

/-- A default oracle environment: every external call succeeds, the cache
is empty, the classifier reports a confident negative, the summarizer
answers `OK`, the store is empty. -/
def baseEnv : EnvO :=
  { cacheGet := fun _ => Except.ok none
    cachePut := fun _ _ _ => Except.ok ()
    cacheDelete := fun _ => Except.ok ()
    classify := fun _ => Except.ok ("NEGATIVE", 9 / 10)
    summarize := fun _ => Except.ok "OK"
    insertRes := fun i => Except.ok (i + 1)
    db := []
    now := "T0"
    cutoff7 := 0
    nowT := 100 }

/-- A record set with one positive and one negative record. -/
def fbPos : Feedback := mkFb 1 "Great new AI feature!" (some "fan@email.com") (some "positive") 10 none

/-- The negative half of the pair for the average-sentiment test. -/
def fbNeg : Feedback := mkFb 2 "Cannot deploy to Workers" (some "dev@company.com") (some "negative") 20 none

/-- A store with one user owning two unresolved records with the same
title: the witness that `GROUP_CONCAT` repeats a title. -/
def dbSample : List Feedback :=
  [mkFb 1 "T" (some "dev@x.com") (some "negative") 10 none,
   mkFb 2 "T" (some "dev@x.com") (some "negative") 20 none]

/-- A store with one user owning exactly two unresolved records with two
distinct titles. -/
def dbTwoTitles : List Feedback :=
  [mkFb 1 "T1" (some "u@x.com") none 10 none,
   mkFb 2 "T2" (some "u@x.com") none 20 none]

/-- Environment whose cache write always fails. -/
def envPutFail : EnvO :=
  { baseEnv with cachePut := fun _ _ _ => Except.error "put failed", db := dbSample }

/-- Environment whose cache read always fails. -/
def envGetFail : EnvO :=
  { baseEnv with cacheGet := fun _ => Except.error "kv down", db := dbSample }

/-- Environment whose summarizer always fails. -/
def envAIFail : EnvO :=
  { baseEnv with summarize := fun _ => Except.error "ai down" }

/-- The property claimed of the ingestion batch: every invalidation of one
of the fixed keys sits after every record write in the trace. -/
def invalidationFollowsWrites (tr : List Event) : Prop :=
  ∀ (i j : Nat) (k t : String), tr[i]? = some (Event.cacheDelete k) → k ∈ invKeys →
    tr[j]? = some (Event.dbInsert t) → j < i

end FeedbackAnalyzer

namespace FeedbackAnalyzer

@[simp] theorem pure_def {α : Type} (a : α) : (pure a : M α) = ⟨Except.ok a, []⟩ := rfl

@[simp] theorem bind_ok {α β : Type} (a : α) (t : List Event) (f : α → M β) :
    ((⟨Except.ok a, t⟩ : M α) >>= f) = ⟨(f a).res, t ++ (f a).trace⟩ := rfl

@[simp] theorem bind_error {α β : Type} (e : String) (t : List Event) (f : α → M β) :
    ((⟨Except.error e, t⟩ : M α) >>= f) = ⟨Except.error e, t⟩ := rfl

theorem bind_def {α β : Type} (x : M α) (f : α → M β) :
    (x >>= f) = match x.res with
      | Except.ok a => ⟨(f a).res, x.trace ++ (f a).trace⟩
      | Except.error e => ⟨Except.error e, x.trace⟩ := rfl

/-- C5: for every non-empty record set, `Stats.avgSentiment` is the average
over all records of the score positive ↦ 8.0 / neutral ↦ 5.0 / anything
else ↦ 2.0, formatted to one decimal; for exactly one positive and one
negative record it is exactly `"5.0"`. -/
theorem stats_avg_over_all_records (db : List Feedback) (h : db ≠ []) :
    avgScoreString db =
      toFixed1 ((db.map (fun f => sentimentScore f.sentiment)).sum / (db.length : ℚ)) ∧
    avgScoreString [fbPos, fbNeg] = "5.0" := by
  constructor
  · have hpos : 0 < db.length := List.length_pos.mpr h
    simp only [avgScoreString, List.length_map, List.sum_eq_foldl]
    rw [if_pos hpos]
  · have h10 : avgScoreString [fbPos, fbNeg] = toFixed1 5 := by
      simp [avgScoreString, fbPos, fbNeg, mkFb, sentimentScore]
      norm_num
    have h50 : (⌊(5 : ℚ) * 10 + 1 / 2⌋ : ℤ) = 50 := by
      rw [Int.floor_eq_iff]
      norm_num
    rw [h10]
    simp only [toFixed1, h50]
    decide

theorem stats_avg_over_all_records_witness :
    avgScoreString [fbPos, fbNeg] =
      toFixed1 (([fbPos, fbNeg].map (fun f => sentimentScore f.sentiment)).sum /
        (([fbPos, fbNeg] : List Feedback).length : ℚ)) :=
  (stats_avg_over_all_records [fbPos, fbNeg] (List.cons_ne_nil _ _)).1

/-- C6: on classifier failure the sentiment is the keyword fallback:
lowercase the text, any positive keyword ↦ positive, else any negative
keyword ↦ negative, else neutral; the fallback is a total function whose
value is always one of the three labels; "this is broken and slow"
falls back to negative, a text with no keyword to neutral. -/
theorem classifier_failure_fallback :
    (∀ env : EnvO, ∀ text : String,
      analyzeSentiment env text = analyzeSentimentCore (env.classify (text.take 500)) text) ∧
    (∀ e text : String, analyzeSentimentCore (Except.error e) text = fallbackSentiment text) ∧
    analyzeSentimentCore (Except.error "down") "this is broken and slow" = "negative" ∧
    analyzeSentimentCore (Except.error "down") "the weather today" = "neutral" ∧
    (∀ text : String, fallbackSentiment text = "positive" ∨
      fallbackSentiment text = "negative" ∨ fallbackSentiment text = "neutral") := by
  refine ⟨fun _ _ => rfl, fun _ _ => rfl, by decide, by decide, fun text => ?_⟩
  simp only [fallbackSentiment]
  split_ifs <;> simp

/-- C8: the recent-issues view never touches the cache: for every
environment its trace is exactly one store query, and the response is a
pure function of the current record set, so the very next read after any
write reflects that write. -/
theorem recent_issues_never_cached (env : EnvO) :
    getRecentIssues env =
      ⟨Except.ok (recentPayload (recentRows env.db)), [Event.dbQuery "recentRows"]⟩ ∧
    (∀ r : Feedback,
      (getRecentIssues { env with db := env.db ++ [r] }).res =
        Except.ok (recentPayload (recentRows (env.db ++ [r])))) :=
  ⟨rfl, fun _ => rfl⟩

/-- C2 counterexample: with an empty cache and a failing cache write, the
stats request returns the cache-write error, not the computed payload. -/
theorem stats_put_failure_cex :
    (getStats envPutFail).res = Except.error "put failed" ∧
    (getStats envPutFail).res ≠ Except.ok (statsView dbSample) := by
  have h : (getStats envPutFail).res = Except.error "put failed" := rfl
  exact ⟨h, by rw [h]; exact fun hc => Except.noConfusion hc⟩

/-- C2 corrected: after a successful view computation, a failed cache
write never lets the freshly computed payload reach the caller.  For the
four aggregate views (stats, top-issues, repeat-users,
longest-unresolved) the awaited put sits outside any try/catch, so the
cache-write error propagates to the caller; for the ai-insights view the
put sits inside the try around the summarizer call, so the error is
caught and the fixed fallback payload is returned in place of the
computed one. -/
theorem cache_write_failure_no_payload :
    (∀ (env : EnvO) (e : String), env.cacheGet "stats" = Except.ok none →
      env.cachePut "stats" (statsView env.db) 300 = Except.error e →
      (getStats env).res = Except.error e) ∧
    (∀ (env : EnvO) (e : String), env.cacheGet "top-issues" = Except.ok none →
      env.cachePut "top-issues" (topIssuesPayload (topIssuesRows env.db)) 300 =
        Except.error e →
      (getTopIssues env).res = Except.error e) ∧
    (∀ (env : EnvO) (e : String), env.cacheGet "repeat-users" = Except.ok none →
      env.cachePut "repeat-users" (repeatPayload (repeatUsersRows env.db)) 300 =
        Except.error e →
      (getRepeatUsers env).res = Except.error e) ∧
    (∀ (env : EnvO) (e : String), env.cacheGet "longest-unresolved" = Except.ok none →
      env.cachePut "longest-unresolved" (longestPayload (longestRows env.db env.nowT)) 300 =
        Except.error e →
      (getLongestUnresolved env).res = Except.error e) ∧
    (∀ (env : EnvO) (r e : String), env.cacheGet "ai-insights" = Except.ok none →
      env.summarize (aiPrompt env.db env.cutoff7) = Except.ok r →
      env.cachePut "ai-insights" (insightsPayload r env.now) 600 = Except.error e →
      (getAIInsights env).res = Except.ok (insightsPayload fallbackInsightsMsg env.now)) := by
  refine ⟨fun env e hget hput => ?_, fun env e hget hput => ?_, fun env e hget hput => ?_,
    fun env e hget hput => ?_, fun env r e hget hsum hput => ?_⟩
  · simp only [statsView] at hput
    simp only [getStats, cacheGetA, dbQueryA, cachePutA, hget, hput,
      bind_ok, bind_error, pure_def]
  · simp only [getTopIssues, cacheGetA, dbQueryA, cachePutA, hget, hput,
      bind_ok, bind_error, pure_def]
  · simp only [getRepeatUsers, cacheGetA, dbQueryA, cachePutA, hget, hput,
      bind_ok, bind_error, pure_def]
  · simp only [getLongestUnresolved, cacheGetA, dbQueryA, cachePutA, hget, hput,
      bind_ok, bind_error, pure_def]
  · simp only [aiPrompt] at hsum
    simp only [getAIInsights, cacheGetA, dbQueryA, summarizeA, cachePutA, tryCatchA,
      hget, hsum, hput, bind_ok, bind_error, pure_def]

theorem cache_write_failure_no_payload_witness :
    (getStats envPutFail).res = Except.error "put failed" ∧
    (getAIInsights envPutFail).res =
      Except.ok (insightsPayload fallbackInsightsMsg "T0") :=
  ⟨cache_write_failure_no_payload.1 envPutFail "put failed" rfl rfl,
   cache_write_failure_no_payload.2.2.2.2 envPutFail "OK" "put failed" rfl rfl rfl⟩

/-- C3 counterexample: with a failing cache read, the stats request
returns the cache-read error without computing the view from the store. -/
theorem stats_get_failure_cex :
    (getStats envGetFail).res = Except.error "kv down" ∧
    (getStats envGetFail).trace = [Event.cacheGet "stats"] ∧
    (getStats envGetFail).res ≠ Except.ok (statsView dbSample) := by
  have h : (getStats envGetFail).res = Except.error "kv down" := rfl
  exact ⟨h, rfl, by rw [h]; exact fun hc => Except.noConfusion hc⟩

/-- C3 corrected: a cache-read failure is not treated as a miss: both for
the stats view and for the AI-insights view the error propagates to the
caller and the view is never computed from the store (the trace stops at
the cache read). -/
theorem cache_read_failure_propagates :
    (∀ (env : EnvO) (e : String), env.cacheGet "stats" = Except.error e →
      getStats env = ⟨Except.error e, [Event.cacheGet "stats"]⟩) ∧
    (∀ (env : EnvO) (e : String), env.cacheGet "ai-insights" = Except.error e →
      getAIInsights env = ⟨Except.error e, [Event.cacheGet "ai-insights"]⟩) := by
  constructor <;> intro env e hget <;>
    simp only [getStats, getAIInsights, cacheGetA, hget, bind_error]

theorem cache_read_failure_propagates_witness :
    getStats envGetFail = ⟨Except.error "kv down", [Event.cacheGet "stats"]⟩ :=
  cache_read_failure_propagates.1 envGetFail "kv down" rfl

/-- C7: when the summarizer call fails, the AI-insights view returns the
fixed fallback message wrapped with the generation timestamp; the failure
is never raised to the caller. -/
theorem ai_insights_summarizer_failure_fallback (env : EnvO) (e : String)
    (hget : env.cacheGet "ai-insights" = Except.ok none)
    (hsum : env.summarize (aiPrompt env.db env.cutoff7) = Except.error e) :
    (getAIInsights env).res = Except.ok (insightsPayload fallbackInsightsMsg env.now) := by
  have hp : aiPrompt env.db env.cutoff7 =
      String.intercalate "\n" ((recentWindow env.db env.cutoff7).map lineOf) := rfl
  rw [hp] at hsum
  simp only [getAIInsights, cacheGetA, dbQueryA, summarizeA, cachePutA, tryCatchA,
    hget, hsum, bind_ok, bind_error, pure_def]

theorem ai_insights_summarizer_failure_fallback_witness :
    (getAIInsights envAIFail).res = Except.ok (insightsPayload fallbackInsightsMsg "T0") :=
  ai_insights_summarizer_failure_fallback envAIFail "ai down" rfl rfl

/-- C10: on summarizer failure no cache write happens (the trace stops at
the cache read and the store query), while on summarizer success the
payload is written under `ai-insights` with TTL 600. -/
theorem ai_insights_fallback_not_cached :
    (∀ (env : EnvO) (e : String), env.cacheGet "ai-insights" = Except.ok none →
      env.summarize (aiPrompt env.db env.cutoff7) = Except.error e →
      (getAIInsights env).trace = [Event.cacheGet "ai-insights", Event.dbQuery "recentWindow"]) ∧
    (∀ (env : EnvO) (r : String), env.cacheGet "ai-insights" = Except.ok none →
      env.summarize (aiPrompt env.db env.cutoff7) = Except.ok r →
      (getAIInsights env).trace = [Event.cacheGet "ai-insights", Event.dbQuery "recentWindow",
        Event.cachePut "ai-insights" (insightsPayload r env.now) 600]) := by
  constructor
  · intro env v hget hsum
    simp only [aiPrompt] at hsum
    simp only [getAIInsights, cacheGetA, dbQueryA, summarizeA, cachePutA, tryCatchA,
      hget, hsum, bind_ok, bind_error, pure_def]
    simp
  · intro env r hget hsum
    simp only [aiPrompt] at hsum
    cases hput : env.cachePut "ai-insights" (insightsPayload r env.now) 600 with
    | ok u =>
      simp only [getAIInsights, cacheGetA, dbQueryA, summarizeA, cachePutA, tryCatchA,
        hget, hsum, hput, bind_ok, bind_error, pure_def]
      simp
    | error e2 =>
      simp only [getAIInsights, cacheGetA, dbQueryA, summarizeA, cachePutA, tryCatchA,
        hget, hsum, hput, bind_ok, bind_error, pure_def]
      simp

theorem ai_insights_fallback_not_cached_witness :
    (getAIInsights envAIFail).trace =
      [Event.cacheGet "ai-insights", Event.dbQuery "recentWindow"] ∧
    (getAIInsights baseEnv).trace =
      [Event.cacheGet "ai-insights", Event.dbQuery "recentWindow",
        Event.cachePut "ai-insights" (insightsPayload "OK" "T0") 600] :=
  ⟨ai_insights_fallback_not_cached.1 envAIFail "ai down" rfl rfl,
   ai_insights_fallback_not_cached.2 baseEnv "OK" rfl rfl⟩

theorem mem_dedupKeepFirst_aux (l : List String) (a : String) :
    ∀ acc : List String,
      (a ∈ l.foldl (fun acc b => if b ∈ acc then acc else acc ++ [b]) acc ↔ a ∈ acc ∨ a ∈ l) := by
  induction l with
  | nil => intro acc; simp
  | cons b l ih =>
    intro acc
    rw [List.foldl_cons, ih]
    by_cases hb : b ∈ acc
    · simp only [if_pos hb, List.mem_cons]
      constructor
      · rintro (h | h) <;> tauto
      · rintro (h | h | h)
        · tauto
        · exact Or.inl (h ▸ hb)
        · tauto
    · simp only [if_neg hb, List.mem_append, List.mem_singleton, List.mem_cons]
      tauto

theorem mem_dedupKeepFirst {l : List String} {a : String} :
    a ∈ dedupKeepFirst l ↔ a ∈ l := by
  rw [dedupKeepFirst, mem_dedupKeepFirst_aux]
  simp

theorem mem_repeatUsersRows {db : List Feedback} {r : RepeatRow}
    (hr : r ∈ repeatUsersRows db) :
    2 ≤ r.complaint_count ∧ r = mkRow db r.user_email := by
  have h1 : r ∈ (((repeatEmails db).map (mkRow db)).filter
      (fun r => 1 < r.complaint_count)).insertionSort countGE := List.mem_of_mem_take hr
  rw [List.mem_insertionSort] at h1
  obtain ⟨h2, h3⟩ := List.mem_filter.mp h1
  obtain ⟨e, he, hre⟩ := List.mem_map.mp h2
  subst hre
  have h4 := of_decide_eq_true h3
  exact ⟨h4, rfl⟩

/-- C4 counterexample: for a user with two unresolved records carrying the
same title, the issues concatenation repeats the title (`"T | T"`), while
the distinct-title concatenation of the spec is `"T"`. -/
theorem repeat_users_distinct_titles_cex :
    repeatUsersRows dbSample =
      [{ user_email := "dev@x.com", complaint_count := 2, issues := "T | T" }] ∧
    repeatUsersRowsSpec dbSample =
      [{ user_email := "dev@x.com", complaint_count := 2, issues := "T" }] ∧
    repeatUsersRows dbSample ≠ repeatUsersRowsSpec dbSample := by
  refine ⟨by decide, by decide, by decide⟩

/-- C4 corrected: the RepeatUsers view groups unresolved records with a
non-null user identifier by that identifier, keeps only groups of size
≥ 2 (a group of size ≥ 2 is kept whenever fewer than six groups qualify),
returns at most 5 rows ordered by group size descending, and each row
carries the identifier, the group size, and the concatenation of ALL the
titles of the group (with multiplicity, in store order) joined by `" | "`. -/
theorem repeat_users_grouping :
    (∀ db : List Feedback,
      (repeatUsersRows db).length ≤ 5 ∧
      List.Sorted countGE (repeatUsersRows db) ∧
      (∀ r, r ∈ repeatUsersRows db →
        2 ≤ r.complaint_count ∧
        r.complaint_count = (groupOf db r.user_email).length ∧
        r.issues = String.intercalate " | " ((groupOf db r.user_email).map (fun f => f.title)))) ∧
    (∀ (db : List Feedback) (e : String), (groupOf db e).length ≤ 1 →
      ∀ r, r ∈ repeatUsersRows db → r.user_email ≠ e) ∧
    (∀ (db : List Feedback) (e : String),
      2 ≤ (groupOf db e).length →
      (((repeatEmails db).map (mkRow db)).filter (fun r => 1 < r.complaint_count)).length ≤ 5 →
      mkRow db e ∈ repeatUsersRows db) ∧
    repeatUsersRows dbTwoTitles =
      [{ user_email := "u@x.com", complaint_count := 2, issues := "T1 | T2" }] := by
  refine ⟨fun db => ⟨?_, ?_, fun r hr => ?_⟩, fun db e hle r hr hne => ?_,
    fun db e h2 h5 => ?_, by decide⟩
  · exact List.length_take_le _ _
  · exact (List.sorted_insertionSort countGE _).sublist (List.take_sublist 5 _)
  · obtain ⟨h2, hmk⟩ := mem_repeatUsersRows hr
    refine ⟨h2, ?_, ?_⟩
    · conv_lhs => rw [hmk]
      rfl
    · conv_lhs => rw [hmk]
      rfl
  · obtain ⟨h2, hmk⟩ := mem_repeatUsersRows hr
    have hc : r.complaint_count = (groupOf db r.user_email).length := by
      conv_lhs => rw [hmk]
      rfl
    rw [hne] at hc
    omega
  · have hne : groupOf db e ≠ [] := by
      intro hnil
      rw [hnil] at h2
      simp at h2
    obtain ⟨f, hf⟩ := List.exists_mem_of_ne_nil _ hne
    have hfe : f.user_email = some e := by
      have := (List.mem_filter.mp hf).2
      simpa using this
    have hfu : f ∈ unresolvedWithEmail db := (List.mem_filter.mp hf).1
    have hee : e ∈ repeatEmails db := by
      rw [repeatEmails, mem_dedupKeepFirst]
      exact List.mem_filterMap.mpr ⟨f, hfu, hfe⟩
    have hmem : mkRow db e ∈ ((repeatEmails db).map (mkRow db)).filter
        (fun r => 1 < r.complaint_count) := by
      rw [List.mem_filter]
      refine ⟨List.mem_map_of_mem _ hee, ?_⟩
      have : 1 < (mkRow db e).complaint_count := h2
      exact decide_eq_true this
    rw [repeatUsersRows, List.take_of_length_le]
    · rw [List.mem_insertionSort]
      exact hmem
    · rw [(List.perm_insertionSort countGE _).length_eq]
      exact h5

theorem repeat_users_grouping_witness :
    2 ≤ (RepeatRow.mk "u@x.com" 2 "T1 | T2").complaint_count :=
  ((repeat_users_grouping.1 dbTwoTitles).2.2 (RepeatRow.mk "u@x.com" 2 "T1 | T2")
    (by decide)).1

theorem mem_bind_trace {α β : Type} {x : M α} {f : α → M β} {ev : Event}
    (h : ev ∈ (x >>= f).trace) :
    ev ∈ x.trace ∨ ∃ a, x.res = Except.ok a ∧ ev ∈ (f a).trace := by
  rw [bind_def] at h
  cases hx : x.res with
  | ok a =>
    rw [hx] at h
    simp only [List.mem_append] at h
    rcases h with h | h
    · exact Or.inl h
    · exact Or.inr ⟨a, rfl, h⟩
  | error e =>
    rw [hx] at h
    exact Or.inl h

theorem mem_tryCatch_trace {α : Type} {x : M α} {handler : String → M α} {ev : Event}
    (h : ev ∈ (tryCatchA x handler).trace) :
    ev ∈ x.trace ∨ ∃ e, ev ∈ (handler e).trace := by
  rw [tryCatchA] at h
  cases hx : x.res with
  | ok a => rw [hx] at h; exact Or.inl h
  | error e =>
    rw [hx] at h
    simp only [List.mem_append] at h
    rcases h with h | h
    · exact Or.inl h
    · exact Or.inr ⟨e, h⟩

theorem mem_of_get_elem_some {l : List Event} {n : Nat} {a : Event}
    (h : l[n]? = some a) : a ∈ l := by
  obtain ⟨hlt, he⟩ := List.getElem?_eq_some_iff.mp h
  exact he ▸ List.getElem_mem hlt

theorem seedRecordA_trace (env : EnvO) (idx : Nat) (fb : SeedItem) :
    ∀ ev ∈ (seedRecordA env idx fb).trace, ∃ t, ev = Event.dbInsert t := by
  intro ev hev
  unfold seedRecordA at hev
  rcases mem_tryCatch_trace hev with h | ⟨e, he⟩
  · rcases mem_bind_trace h with h1 | ⟨a, _, h2⟩
    · unfold insertA at h1
      cases hi : env.insertRes idx with
      | ok rowid =>
        rw [hi] at h1
        simp only [List.mem_singleton] at h1
        exact ⟨fb.title, h1⟩
      | error e2 =>
        rw [hi] at h1
        simp at h1
    · simp at h2
  · simp at he

theorem seedLoop_trace (env : EnvO) :
    ∀ (items : List SeedItem) (idx : Nat),
      ∀ ev ∈ (seedLoop env idx items).trace, ∃ t, ev = Event.dbInsert t := by
  intro items
  induction items with
  | nil => intro idx ev hev; simp [seedLoop] at hev
  | cons fb rest ih =>
    intro idx ev hev
    simp only [seedLoop] at hev
    rcases mem_bind_trace hev with h1 | ⟨a, _, h2⟩
    · exact seedRecordA_trace env idx fb ev h1
    · rcases mem_bind_trace h2 with h3 | ⟨p, _, h4⟩
      · exact ih (idx + 1) ev h3
      · rcases p with ⟨ins, errs⟩
        rcases a with i | e <;> simp at h4

theorem bind_trace_nil {α β : Type} {x : M α} {f : α → M β}
    (hf : ∀ a, (f a).trace = []) : (x >>= f).trace = x.trace := by
  rw [bind_def]
  cases h : x.res <;> simp [hf]

theorem seedDatabase_split (env : EnvO) :
    ∃ A B : List Event, (seedDatabase env).trace = A ++ B ∧
      (∀ ev ∈ A, ∃ k, ev = Event.cacheDelete k ∧ k ∈ invKeys) ∧
      (∀ ev ∈ B, ∃ t, ev = Event.dbInsert t) := by
  unfold seedDatabase
  cases h1 : env.cacheDelete "stats" with
  | error e =>
    refine ⟨[Event.cacheDelete "stats"], [], ?_, ?_, by simp⟩
    · simp [cacheDeleteA, h1, bind_error]
    · intro ev hev
      simp only [List.mem_singleton] at hev
      exact ⟨"stats", hev, by simp [invKeys]⟩
  | ok u1 =>
  cases h2 : env.cacheDelete "top-issues" with
  | error e =>
    refine ⟨[Event.cacheDelete "stats", Event.cacheDelete "top-issues"], [], ?_, ?_, by simp⟩
    · simp [cacheDeleteA, h1, h2, bind_ok, bind_error]
    · intro ev hev
      simp only [List.mem_cons, List.not_mem_nil, or_false] at hev
      rcases hev with rfl | rfl <;> exact ⟨_, rfl, by simp [invKeys]⟩
  | ok u2 =>
  cases h3 : env.cacheDelete "repeat-users" with
  | error e =>
    refine ⟨[Event.cacheDelete "stats", Event.cacheDelete "top-issues",
      Event.cacheDelete "repeat-users"], [], ?_, ?_, by simp⟩
    · simp [cacheDeleteA, h1, h2, h3, bind_ok, bind_error]
    · intro ev hev
      simp only [List.mem_cons, List.not_mem_nil, or_false] at hev
      rcases hev with rfl | rfl | rfl <;> exact ⟨_, rfl, by simp [invKeys]⟩
  | ok u3 =>
  cases h4 : env.cacheDelete "longest-unresolved" with
  | error e =>
    refine ⟨[Event.cacheDelete "stats", Event.cacheDelete "top-issues",
      Event.cacheDelete "repeat-users", Event.cacheDelete "longest-unresolved"], [], ?_, ?_,
      by simp⟩
    · simp [cacheDeleteA, h1, h2, h3, h4, bind_ok, bind_error]
    · intro ev hev
      simp only [List.mem_cons, List.not_mem_nil, or_false] at hev
      rcases hev with rfl | rfl | rfl | rfl <;> exact ⟨_, rfl, by simp [invKeys]⟩
  | ok u4 =>
  cases h5 : env.cacheDelete "ai-insights" with
  | error e =>
    refine ⟨[Event.cacheDelete "stats", Event.cacheDelete "top-issues",
      Event.cacheDelete "repeat-users", Event.cacheDelete "longest-unresolved",
      Event.cacheDelete "ai-insights"], [], ?_, ?_, by simp⟩
    · simp [cacheDeleteA, h1, h2, h3, h4, h5, bind_ok, bind_error]
    · intro ev hev
      simp only [List.mem_cons, List.not_mem_nil, or_false] at hev
      rcases hev with rfl | rfl | rfl | rfl | rfl <;> exact ⟨_, rfl, by simp [invKeys]⟩
  | ok u5 =>
    refine ⟨[Event.cacheDelete "stats", Event.cacheDelete "top-issues",
      Event.cacheDelete "repeat-users", Event.cacheDelete "longest-unresolved",
      Event.cacheDelete "ai-insights"], (seedLoop env 0 mockFeedback).trace, ?_, ?_, ?_⟩
    · simp only [cacheDeleteA, h1, h2, h3, h4, h5, bind_ok]
      rw [bind_def]
      cases hres : (seedLoop env 0 mockFeedback).res <;> simp
    · intro ev hev
      simp only [List.mem_cons, List.not_mem_nil, or_false] at hev
      rcases hev with rfl | rfl | rfl | rfl | rfl <;> exact ⟨_, rfl, by simp [invKeys]⟩
    · intro ev hev
      exact seedLoop_trace env mockFeedback 0 ev hev

/-- C1 counterexample: in the batch of `seedDatabase` the cache deletes of
the fixed key set do NOT follow the record writes: the delete of `stats`
is the very first event and a record insert follows it. -/
theorem seed_invalidation_order_cex :
    (seedDatabase baseEnv).trace[0]? = some (Event.cacheDelete "stats") ∧
    (seedDatabase baseEnv).trace[5]? =
      some (Event.dbInsert "Dashboard loading takes 5+ seconds") ∧
    ¬ invalidationFollowsWrites (seedDatabase baseEnv).trace := by
  refine ⟨by decide, by decide, ?_⟩
  intro h
  unfold invalidationFollowsWrites at h
  have h5 := h 0 5 "stats" "Dashboard loading takes 5+ seconds"
    (by decide) (by decide) (by decide)
  exact absurd h5 (by decide)

/-- C1 corrected: `seedDatabase` invalidates the fixed key set at the
START of the batch: every cache delete in its trace names one of the five
fixed keys and strictly precedes every record write. -/
theorem seed_invalidation_before_writes (env : EnvO) (i j : Nat) (k t : String)
    (hi : (seedDatabase env).trace[i]? = some (Event.cacheDelete k))
    (hj : (seedDatabase env).trace[j]? = some (Event.dbInsert t)) :
    k ∈ invKeys ∧ i < j := by
  obtain ⟨A, B, heq, hA, hB⟩ := seedDatabase_split env
  rw [heq] at hi hj
  have hiA : i < A.length := by
    by_contra hge
    push_neg at hge
    rw [List.getElem?_append_right hge] at hi
    obtain ⟨t2, ht2⟩ := hB _ (mem_of_get_elem_some hi)
    exact Event.noConfusion ht2
  have hjA : A.length ≤ j := by
    by_contra hlt
    push_neg at hlt
    rw [List.getElem?_append_left hlt] at hj
    obtain ⟨k2, hk2, _⟩ := hA _ (mem_of_get_elem_some hj)
    exact Event.noConfusion hk2
  constructor
  · rw [List.getElem?_append_left hiA] at hi
    obtain ⟨k2, hk2, hk2in⟩ := hA _ (mem_of_get_elem_some hi)
    injection hk2 with hh
    exact hh ▸ hk2in
  · omega

theorem seed_invalidation_before_writes_witness :
    "stats" ∈ invKeys ∧ 0 < 5 :=
  seed_invalidation_before_writes baseEnv 0 5 "stats"
    "Dashboard loading takes 5+ seconds" (by decide) (by decide)

/-- C9: on the empty record set `getStats` succeeds and reports
`avgSentiment = "0.0"`: the division by the record count is behind a
positive-length guard. -/
theorem stats_empty_record_set :
    (getStats baseEnv).res = Except.ok (statsView []) ∧
    avgScoreString [] = "0.0" ∧
    statsView [] = "total=0;avgSentiment=0.0;unresolved=0;repeatUsers=0" := by
  refine ⟨rfl, rfl, rfl⟩

end FeedbackAnalyzer
